import Mathlib

/-!
Verification development for the Whisper interpreter core.

The definitions below are shallow embeddings of the C++ sources:
value.hpp (the 4-bit high-tag Value design), slab.hpp, gc/heap.hpp,
vm/frame.hpp and vm/frame.cpp.  Machine words are modelled as Nat with
explicit reduction modulo 2^64 or 2^32 where the C++ truncates; pointers
and addresses are modelled as integers.  WH_ASSERT is compiled only in
debug builds; where an assertion guards a read that would otherwise be
undefined (reading the value of a non-Value result), the model makes the
violation an explicit outcome.
-/

namespace Whisper

/-! ## Tagged value (value.hpp, high-tag design) -/

/-- Type tag enumeration for values (value.hpp, enum class ValueTag). -/
inductive ValueTag where
  | Object
  | Null
  | Undefined
  | Boolean
  | HeapString
  | ImmString8
  | ImmString16
  | ImmDoubleLow
  | ImmDoubleHigh
  | ImmDoubleX
  | HeapDouble
  | UNUSED_B
  | Int32
  | Magic
  | UNUSED_E
  | UNUSED_F
  deriving DecidableEq, Repr

/-- Numeric code of a tag (value.hpp, ValueTagNumber). -/
def ValueTagNumber : ValueTag → Nat
  | .Object        => 0x0
  | .Null          => 0x1
  | .Undefined     => 0x2
  | .Boolean       => 0x3
  | .HeapString    => 0x4
  | .ImmString8    => 0x5
  | .ImmString16   => 0x6
  | .ImmDoubleLow  => 0x7
  | .ImmDoubleHigh => 0x8
  | .ImmDoubleX    => 0x9
  | .HeapDouble    => 0xA
  | .UNUSED_B      => 0xB
  | .Int32         => 0xC
  | .Magic         => 0xD
  | .UNUSED_E      => 0xE
  | .UNUSED_F      => 0xF

/-- Validity predicate on tags (value.hpp, IsValidValueTag): every tag
except the three unused codes. -/
def IsValidValueTag : ValueTag → Bool
  | .UNUSED_B => false
  | .UNUSED_E => false
  | .UNUSED_F => false
  | _         => true

/-- Value is a 64-bit tagged word (value.hpp, class Value, field tagged_).
The invariant field keeps the word inside 64 bits. -/
structure Value where
  tagged : Nat
  lt64 : tagged < 2 ^ 64
  deriving DecidableEq

/-- TagShift constant (value.hpp): the tag occupies the high 4 bits. -/
def TagShift : Nat := 60

/-- MakeTag (value.hpp): a value that is only a tag in the high bits. -/
def Value.MakeTag (tag : ValueTag) : Value :=
  ⟨ValueTagNumber tag <<< TagShift, by
    have h : ValueTagNumber tag < 16 := by cases tag <;> decide
    calc ValueTagNumber tag <<< TagShift = ValueTagNumber tag * 2 ^ 60 := by
          simp [Nat.shiftLeft_eq, TagShift]
      _ < 16 * 2 ^ 60 := by
          exact Nat.mul_lt_mul_of_lt_of_le h (le_refl _) (by norm_num)
      _ = 2 ^ 64 := by norm_num⟩

/-- MakeTagValue (value.hpp lines 275 to 279).  The C++ body is

    WH_ASSERT(IsValidValueTag(tag));
    WH_ASSERT(ival <= (~UInt64(0) >> TagBits));
    return Value(UInt64(tag) << TagShift);

so the ival argument is asserted against but never merged into the
returned word; the function returns the bare tag word.  The embedding
reproduces this faithfully. -/
def Value.MakeTagValue (tag : ValueTag) (ival : Nat) : Value :=
  Value.MakeTag tag

/-- checkTag (value.hpp): compare the high 4 bits against a tag code. -/
def Value.checkTag (v : Value) (tag : ValueTag) : Bool :=
  v.tagged >>> TagShift == ValueTagNumber tag

/-- isInt32 predicate (value.hpp). -/
def Value.isInt32 (v : Value) : Bool :=
  v.checkTag .Int32

/-- isImmString8 predicate (value.hpp). -/
def Value.isImmString8 (v : Value) : Bool :=
  v.checkTag .ImmString8

/-- Reinterpretation of the low 32 bits of a word as a signed 32-bit
integer, the effect of static_cast of uint64_t to int32_t. -/
def twosComplement32 (n : Nat) : Int :=
  if n % 2 ^ 32 < 2 ^ 31 then ((n % 2 ^ 32 : Nat) : Int)
  else ((n % 2 ^ 32 : Nat) : Int) - 2 ^ 32

/-- getInt32 (value.hpp lines 552 to 555): static_cast of the whole
tagged word to int32_t, keeping the low 32 bits. -/
def Value.getInt32 (v : Value) : Int :=
  twosComplement32 v.tagged

/-- Bit pattern of an int32 value seen as uint32, the UInt32 cast
performed by IntegerValue before calling MakeTagValue. -/
def uint32OfInt (i : Int) : Nat :=
  (i.emod (2 ^ 32)).toNat

/-- IntegerValue (value.hpp lines 730 to 735): casts the int32 to
uint32 and forwards to MakeTagValue with the Int32 tag. -/
def IntegerValue (i : Int) : Value :=
  Value.MakeTagValue .Int32 (uint32OfInt i)

/-- immString8Length (value.hpp lines 453 to 456): bits 56 to 58 of
the tagged word. -/
def Value.immString8Length (v : Value) : Nat :=
  (v.tagged >>> 56) &&& 0x7

/-- readImmString8 (value.hpp lines 464 to 471): reads
immString8Length characters, character i from bits (48 - 8*i). -/
def Value.readImmString8 (v : Value) : List Nat :=
  (List.range v.immString8Length).map
    (fun i => (v.tagged >>> (48 - 8 * i)) &&& 0xFF)

/-- String8Value (value.hpp lines 638 to 651): starts from the length,
then seven rounds of shifting left by 8 and merging the next data byte
while one remains; the accumulated word is passed to MakeTagValue with
the ImmString8 tag (which discards it). -/
def String8Value (length : Nat) (data : List Nat) : Value :=
  let val := (List.range 7).foldl
    (fun val i =>
      let val := val <<< 8
      if i < length then val ||| data.getD i 0 else val)
    length
  Value.MakeTagValue .ImmString8 val

/-! ## Slab allocator (slab.hpp) -/

/-- AllocAlign constant (slab.hpp): allocation alignment, 8 bytes. -/
def AllocAlign : Nat := 8

/-- CardSizeLog2 constant (slab.hpp): cards are 1 KiB. -/
def CardSizeLog2 : Nat := 10

/-- Slab allocation state (slab.hpp, class Slab): the fixed bounds of
the data region and the two bump pointers.  Addresses are integers. -/
structure Slab where
  allocTop : Int
  allocBottom : Int
  headAlloc : Int
  tailAlloc : Int
  deriving DecidableEq, Repr

/-- Initial slab allocation state: headAlloc starts at headStartAlloc,
which is allocTop plus the aligned size of one pointer (8 bytes), and
tailAlloc starts at tailStartAlloc, which is allocBottom (slab.hpp,
headStartAlloc and tailStartAlloc). -/
def Slab.init (top bottom : Int) : Slab :=
  ⟨top, bottom, top + 8, bottom⟩

/-- allocateHead (slab.hpp lines 286 to 296): bump headAlloc upward by
amount; fail exactly when the new top exceeds allocBottom.  On success
the returned address is the old headAlloc. -/
def Slab.allocateHead (s : Slab) (amount : Nat) : Option (Int × Slab) :=
  let oldTop := s.headAlloc
  let newTop := oldTop + amount
  if newTop > s.allocBottom then none
  else some (oldTop, { s with headAlloc := newTop })

/-- allocateTail (slab.hpp lines 299 to 308): bump tailAlloc downward
by amount; fail exactly when the new bottom is below allocTop.  On
success the returned address is the new tailAlloc. -/
def Slab.allocateTail (s : Slab) (amount : Nat) : Option (Int × Slab) :=
  let newBot := s.tailAlloc - amount
  if newBot < s.allocTop then none
  else some (newBot, { s with tailAlloc := newBot })

/-- One-card standard slab example used to exercise the allocator:
data region from 0 to 1024. -/
def slabEx0 : Slab := Slab.init 0 1024

/-! ## Heap field wrapper and write barrier (gc/heap.hpp) -/

/-- Heap state seen by a heap field assignment: the stored field value
together with the set of card numbers the collector has recorded as
dirty.  No operation in gc/heap.hpp writes the dirty set. -/
structure HeapFieldState (T : Type) where
  val : T
  dirtyCards : List Nat
  deriving DecidableEq

/-- Card number of an in-slab offset (slab.hpp, calculateCardNumber):
shift right by CardSizeLog2. -/
def cardOf (offset : Nat) : Nat :=
  offset >>> CardSizeLog2

/-- HeapHolder set (gc/heap.hpp lines 70 to 77).  The C++ body is

    this->val_ = ref;
    // TODO: Set write barrier for container here.

so the assignment stores the new value and performs no other effect:
in particular the dirty-card record is left untouched.  The container
offset argument mirrors the SlabThing container parameter from which a
barrier would compute the card. -/
def HeapHolder.set {T : Type} (st : HeapFieldState T) (ref : T)
    (containerOffset : Nat) : HeapFieldState T :=
  { st with val := ref }

/-! ## Frame machine (vm/frame.hpp, vm/frame.cpp)

The frame machine manipulates ValBox, EvalResult, CallResult and the
property lookup results.  Those types live in vm/box.hpp and
vm/control_flow.hpp, which are not part of the sources here; they are
modelled from the data model of the specification.  The Resolve
implementations themselves are translated from vm/frame.cpp. -/

/-- Modelled from the spec: the kind of heap object a ValBox pointer
refers to, standing in for the HeapThing format queries used by
frame.cpp (isContObject on the pointee, FunctionObject pointees).  The
vm/box.hpp and vm/heap_thing headers are not in the sources.  A
continuation object wraps a captured frame, identified here by a
number. -/
inductive HeapKind where
  | contObject (capturedFrame : Nat)
  | funcObject (operative : Bool)
  | plainObject
  deriving DecidableEq, Repr

/-- Modelled from the spec: ValBox, the 64-bit tagged value used by
the frame machine (vm/box.hpp is not in the sources).  Exactly one
discriminated representation at a time; invalid is the raw-zero
sentinel that the default ValBox constructor produces. -/
inductive ValBox where
  | invalid
  | undefined
  | null
  | boolean (b : Bool)
  | int32 (n : Int)
  | pointer (h : HeapKind)
  deriving DecidableEq, Repr

/-- Pointer test on a ValBox (isPointer in vm/box.hpp, modelled from
the spec: true exactly for heap references). -/
def ValBox.isPointer : ValBox → Bool
  | .pointer _ => true
  | _ => false

/-- Continuation-object test on a heap pointee (HeapThing isContObject,
modelled from the spec). -/
def HeapKind.isContObject : HeapKind → Bool
  | .contObject _ => true
  | _ => false

/-- Internal exception (vm/exception.hpp, class InternalException): a
message plus zero or more boxed arguments. -/
structure InternalExc where
  message : String
  args : List ValBox
  deriving DecidableEq, Repr

/-- Modelled from the spec: EvalResult, the result a frame finishes
with (vm/control_flow.hpp is not in the sources): Value, Void, Error,
or Exc carrying the raising frame (identified by a number) and the
exception. -/
inductive EvalResult where
  | value (v : ValBox)
  | void
  | error
  | exc (raiser : Nat) (e : InternalExc)
  deriving DecidableEq, Repr

/-- isError test on an EvalResult. -/
def EvalResult.isError : EvalResult → Bool
  | .error => true
  | _ => false

/-- isExc test on an EvalResult. -/
def EvalResult.isExc : EvalResult → Bool
  | .exc _ _ => true
  | _ => false

/-- isValue test on an EvalResult. -/
def EvalResult.isValue : EvalResult → Bool
  | .value _ => true
  | _ => false

/-- Reading the value of an EvalResult.  The C++ accessor asserts the
result is a Value; the model returns none for the other kinds. -/
def EvalResult.valueOf : EvalResult → Option ValBox
  | .value v => some v
  | _ => none

/-- Modelled from the spec: EvalResult UndefinedValue, the Value
carrying the undefined ValBox (vm/control_flow.hpp is not in the
sources; frame.cpp resolves a finished File frame with it and the
TerminalFrame constructor initialises its result field with it). -/
def EvalResult.UndefinedValue : EvalResult :=
  .value .undefined

/-- FunctionObject as the frame machine consumes it: the callable
wrapper whose operative flag is stored in the heap header user data
(vm/function.hpp).  isApplicative is the negation of the flag. -/
structure FunctionObject where
  operative : Bool
  deriving DecidableEq, Repr

/-- isOperative accessor (vm/function.hpp). -/
def FunctionObject.isOperative (f : FunctionObject) : Bool :=
  f.operative

/-- isApplicative accessor (vm/function.hpp): a function is
applicative exactly when the operative flag is clear. -/
def FunctionObject.isApplicative (f : FunctionObject) : Bool :=
  !f.operative

/-- Modelled from the spec: FunctionObjectForValue
(interp/heap_interpreter, not in the sources): yields the
FunctionObject when the value is a heap reference to one, and fails
otherwise; frame.cpp treats the failure as a non-callable callee. -/
def FunctionObjectForValue : ValBox → Option FunctionObject
  | .pointer (.funcObject op) => some ⟨op⟩
  | _ => none

/-- Modelled from the spec: outcome of looking up a property name on a
scope object and converting the found descriptor to an EvalResult
(Interp GetObjectProperty and PropertyLookupResult toEvalResult, not
in the sources): an internal error, a complete miss, or a found
binding whose conversion produced the given EvalResult. -/
inductive PropertyLookupResult where
  | error
  | notFound
  | found (ev : EvalResult)
  deriving DecidableEq, Repr

/-- State field of a CallExprSyntaxFrame (vm/frame.hpp, enum State). -/
inductive CallState where
  | callee
  | arg
  | invoke
  deriving DecidableEq, Repr

/-- CallExprSyntaxFrame fields relevant to resolution (vm/frame.hpp):
the frame identity (used as the raiser of exceptions it creates), the
state machine state, the argument counter, the argument count of the
underlying call expression node, and the callee / callee function /
operand list fields.  calleeFunc is a nullable pointer in the source,
hence an Option; operands is a singly linked Slist, hence a list. -/
structure CallExprFrame where
  frameId : Nat
  state : CallState
  argNo : Nat
  numArgs : Nat
  callee : ValBox
  calleeFunc : Option FunctionObject
  operands : List ValBox
  deriving DecidableEq, Repr

/-- Description of a frame freshly created by a Resolve step. -/
inductive NewFrame where
  | callExpr (state : CallState) (argNo : Nat) (callee : ValBox)
      (calleeFunc : Option FunctionObject) (operands : List ValBox)
  | invokeApplicative (callee : ValBox) (calleeFunc : FunctionObject)
      (operands : List ValBox)
  | invokeOperative (callee : ValBox) (calleeFunc : FunctionObject)
  deriving DecidableEq, Repr

/-- Outcome of a Resolve implementation: an internal error (ErrorVal),
resolving the parent frame with a result, continuing to a freshly
created frame, resolving some other captured frame (the continuation
path), or a failed WH_ASSERT guarding a read that is undefined when
the assertion does not hold. -/
inductive StepOutcome where
  | errorOut
  | resolveParent (r : EvalResult)
  | continueFrame (f : NewFrame)
  | resolveFrame (target : Nat) (r : EvalResult)
  | assertFail
  deriving DecidableEq, Repr

/-- Test whether an outcome resolves the parent frame with an
exception result. -/
def StepOutcome.isExcResolution : StepOutcome → Bool
  | .resolveParent (.exc _ _) => true
  | _ => false

/-- CreateCallee (frame.cpp lines 652 to 661): the initial call
expression frame is in Callee state with argNo 0, an invalid callee
box, a null callee function and a null operand list. -/
def CallExprSyntaxFrame.CreateCallee (frameId numArgs : Nat) : CallExprFrame :=
  ⟨frameId, .callee, 0, numArgs, .invalid, none, []⟩

/-- ResolveCallee (frame.cpp lines 767 to 829).  The result must be a
Value (asserted); the value must be callable, otherwise the parent is
resolved with the non-callable exception carrying the value.  An
operative callee, or an applicative callee of a zero-argument call,
continues to an Invoke-state frame with a null operand list; an
applicative callee with arguments continues to an Arg-state frame
with argNo 0 (CreateFirstArg, frame.cpp lines 663 to 677). -/
def CallExprSyntaxFrame.ResolveCallee (fr : CallExprFrame)
    (result : EvalResult) : StepOutcome :=
  match result.valueOf with
  | none => .assertFail
  | some calleeBox =>
    match FunctionObjectForValue calleeBox with
    | none =>
      .resolveParent (.exc fr.frameId
        ⟨"Callee expression is not callable", [calleeBox]⟩)
    | some calleeObj =>
      if calleeObj.isOperative then
        .continueFrame (.callExpr .invoke 0 calleeBox (some calleeObj) [])
      else if fr.numArgs == 0 then
        .continueFrame (.callExpr .invoke 0 calleeBox (some calleeObj) [])
      else
        .continueFrame (.callExpr .arg 0 calleeBox (some calleeObj) [])

/-- ResolveArg (frame.cpp lines 831 to 872).  The result must be a
Value (asserted); the value is prepended to the operand list (Slist
Create of the value onto the old list); when the bumped argument
number reaches the argument count the successor is an Invoke-state
frame (CreateInvoke, argNo 0), otherwise an Arg-state frame with the
bumped argument number (CreateNextArg). -/
def CallExprSyntaxFrame.ResolveArg (fr : CallExprFrame)
    (result : EvalResult) : StepOutcome :=
  match result.valueOf with
  | none => .assertFail
  | some v =>
    let operands := v :: fr.operands
    let nextArgNo := fr.argNo + 1
    if nextArgNo == fr.numArgs then
      .continueFrame (.callExpr .invoke 0 fr.callee fr.calleeFunc operands)
    else
      .continueFrame (.callExpr .arg nextArgNo fr.callee fr.calleeFunc operands)

/-- ResolveInvoke (frame.cpp lines 874 to 886): the result must be a
Value (asserted) and is forwarded to the parent unchanged. -/
def CallExprSyntaxFrame.ResolveInvoke (fr : CallExprFrame)
    (result : EvalResult) : StepOutcome :=
  match result.valueOf with
  | none => .assertFail
  | some _ => .resolveParent result

/-- ResolveImpl of CallExprSyntaxFrame (frame.cpp lines 735 to 765):
errors and exceptions are always forwarded to the parent; otherwise
the behaviour is dispatched on the frame state.  No other result kind
is handled before the dispatch: in particular a Void result reaches
the per-state handlers, each of which asserts the result is a Value. -/
def CallExprSyntaxFrame.ResolveImpl (fr : CallExprFrame)
    (result : EvalResult) : StepOutcome :=
  if result.isError || result.isExc then
    .resolveParent result
  else
    match fr.state with
    | .callee => CallExprSyntaxFrame.ResolveCallee fr result
    | .arg => CallExprSyntaxFrame.ResolveArg fr result
    | .invoke => CallExprSyntaxFrame.ResolveInvoke fr result

/-- Operand list accumulated over the Arg-state resolutions of a call
with arguments resolving to the given values in source order: each
ResolveArg prepends its value to the list, starting from the null
list installed by CreateFirstArg. -/
def CallExprSyntaxFrame.operandsAfterArgs (vs : List ValBox) : List ValBox :=
  vs.foldl (fun ops v => v :: ops) []

/-- Argument array built by InvokeApplicativeFrame StepImpl (frame.cpp
lines 1025 to 1069): the loop walks the operand slist with index i
and writes slot (length - 1) - i, so slot idx of the resulting array
holds operand (length - 1) - idx. -/
def InvokeApplicativeFrame.StepArgs (operands : List ValBox) : List ValBox :=
  List.ofFn (fun (j : Fin operands.length) =>
    operands.get ⟨operands.length - 1 - j.val, by
      have h := j.2; omega⟩)

/-- ResolveImpl of ReturnStmtSyntaxFrame (frame.cpp lines 383 to 451).
Errors and exceptions are forwarded; the result must otherwise be a
Value (asserted).  The retcont lookup outcome drives the rest: a
lookup error is an internal error; a miss resolves the parent with
the non-returnable-context exception; a found binding that converts
to an error or exception is forwarded; a found value that is not a
heap pointer, or whose pointee is not a continuation object, resolves
the parent with the corresponding exception; a continuation object
redirects resolution to its captured frame with the return value
(Continuation continueWith, vm/continuation.cpp). -/
def ReturnStmtSyntaxFrame.ResolveImpl (frameId : Nat) (result : EvalResult)
    (retcontLookup : PropertyLookupResult) : StepOutcome :=
  if result.isError || result.isExc then
    .resolveParent result
  else
    match result.valueOf with
    | none => .assertFail
    | some returnValue =>
      match retcontLookup with
      | .error => .errorOut
      | .notFound =>
        .resolveParent (.exc frameId
          ⟨"return used in non-returnable context.", []⟩)
      | .found ev =>
        if ev.isError || ev.isExc then
          .resolveParent ev
        else
          match ev.valueOf with
          | none => .assertFail
          | some retcontValue =>
            match retcontValue with
            | .pointer (.contObject capturedFrame) =>
              .resolveFrame capturedFrame (.value returnValue)
            | .pointer _ =>
              .resolveParent (.exc frameId
                ⟨"@retcont contains a non-continuation object.", []⟩)
            | _ =>
              .resolveParent (.exc frameId
                ⟨"@retcont contains a non-object value.", []⟩)

/-- ResolveImpl of InvokeSyntaxNodeFrame (frame.cpp lines 127 to 135):
resolve the parent frame with the same result. -/
def InvokeSyntaxNodeFrame.ResolveImpl (result : EvalResult) : StepOutcome :=
  .resolveParent result

/-- TerminalFrame state: the absorbed result field (vm/frame.hpp). -/
structure TerminalFrame where
  result : EvalResult
  deriving DecidableEq, Repr

/-- TerminalFrame constructor (vm/frame.hpp lines 106 to 109): a null
parent and a result field initialised to the undefined Value. -/
def TerminalFrame.create : TerminalFrame :=
  ⟨EvalResult.UndefinedValue⟩

/-- ResolveImpl of TerminalFrame (frame.cpp lines 66 to 75): store the
incoming result in the result field and continue with the terminal
frame itself. -/
def TerminalFrame.ResolveImpl (fr : TerminalFrame)
    (result : EvalResult) : TerminalFrame :=
  { fr with result := result }

/-- Final result observed by a trampoline run over a terminal frame
that received the given sequence of resolutions: each resolution
overwrites the stored result, starting from the freshly created
frame. -/
def trampolineFinalResult (resolves : List EvalResult) : EvalResult :=
  (resolves.foldl TerminalFrame.ResolveImpl TerminalFrame.create).result

/-! ## Theorems -/

/-- C1: the claim states that IntegerValue followed by getInt32 is
the identity on 32-bit integers.  The code drops the payload in
MakeTagValue (value.hpp line 278), so the roundtrip yields 0 at the
input 1, refuting the claim and exhibiting the code bug. -/
theorem claim_C1_int32_roundtrip_bug :
    (IntegerValue 1).isInt32 = true ∧
    (IntegerValue 1).getInt32 = 0 ∧
    (IntegerValue 1).getInt32 ≠ 1 := by
  decide

/-- C2: the claim states that String8Value on a short 8-bit string is
read back exactly by immString8Length and readImmString8.  The code
drops the accumulated payload in MakeTagValue (value.hpp line 278),
so the one-character string with byte 97 comes back with length 0 and
no characters, refuting the claim and exhibiting the code bug. -/
theorem claim_C2_string8_roundtrip_bug :
    (String8Value 1 [97]).isImmString8 = true ∧
    (String8Value 1 [97]).immString8Length = 0 ∧
    (String8Value 1 [97]).readImmString8 = [] ∧
    (String8Value 1 [97]).immString8Length ≠ 1 ∧
    (String8Value 1 [97]).readImmString8 ≠ [97] := by
  decide

/-- C3: the claim states that head and tail allocations fail exactly
when the request does not fit between the two bump pointers and that
successful head and tail ranges are disjoint.  The code checks
allocateHead against the fixed allocBottom and allocateTail against
the fixed allocTop (slab.hpp lines 291 and 303), so on a one-card
slab an 8-byte tail allocation at 1016 followed by a 1016-byte head
allocation both succeed although only 1008 bytes lie between the bump
pointers, and the head range from 8 to 1024 overlaps the tail range
from 1016 to 1024: address 1016 lies in both.  This refutes the claim
and exhibits the code bug. -/
theorem claim_C3_slab_overlap_bug :
    slabEx0.allocateTail 8 = some (1016, ⟨0, 1024, 8, 1016⟩) ∧
    Slab.allocateHead ⟨0, 1024, 8, 1016⟩ 1016 =
      some (8, ⟨0, 1024, 1024, 1016⟩) ∧
    ((1016 : Int) - 8 < 1016) ∧
    ((8 : Int) ≤ 1016 ∧ (1016 : Int) < 8 + 1016) ∧
    ((1016 : Int) ≤ 1016 ∧ (1016 : Int) < 1016 + 8) := by
  decide

/-- C8: the claim states that every heap field assignment through the
heap field wrapper records the containing 1 KiB card as dirty.  The
set member of HeapHolder (gc/heap.hpp lines 70 to 77) only stores the
value, with the barrier left as a TODO comment, so the dirty-card
record is unchanged by every set and the card of the written field is
not recorded. -/
theorem claim_C8_write_barrier_missing :
    (∀ (st : HeapFieldState Nat) (ref off : Nat),
      (HeapHolder.set st ref off).dirtyCards = st.dirtyCards) ∧
    (HeapHolder.set (⟨0, []⟩ : HeapFieldState Nat) 5 2048).dirtyCards = [] ∧
    cardOf 2048 ∉ (HeapHolder.set (⟨0, []⟩ : HeapFieldState Nat) 5 2048).dirtyCards := by
  refine ⟨fun st ref off => rfl, rfl, ?_⟩
  decide

/-- C4 counterexample: the claim states that a Void result from the
callee or an argument subexpression is coerced to an Exc naming the
offending sub-syntax.  Resolving a concrete Callee-state frame and a
concrete Arg-state frame with Void produces no exception resolution
at all: both runs end in the failed isValue assertion of the
per-state handler (frame.cpp lines 775 and 840). -/
theorem claim_C4_void_not_coerced_counterexample :
    (CallExprSyntaxFrame.ResolveImpl
      (CallExprSyntaxFrame.CreateCallee 7 2) .void).isExcResolution = false ∧
    CallExprSyntaxFrame.ResolveImpl
      (CallExprSyntaxFrame.CreateCallee 7 2) .void = .assertFail ∧
    (CallExprSyntaxFrame.ResolveImpl
      ⟨7, .arg, 0, 2, .invalid, none, []⟩ .void).isExcResolution = false ∧
    CallExprSyntaxFrame.ResolveImpl
      ⟨7, .arg, 0, 2, .invalid, none, []⟩ .void = .assertFail := by
  decide

/-- C4 amended: a Void result reaching a CallExprSyntaxFrame is not
coerced to an Exc: ResolveImpl forwards only Error and Exc results to
the parent unchanged, and in the Callee and Arg states the handler
asserts the result is a Value, so a Void result fails that assertion;
no Exc identifying callee versus argument is produced. -/
theorem claim_C4_void_asserts (fid argNo numArgs : Nat) (c : ValBox)
    (f : Option FunctionObject) (ops : List ValBox) :
    CallExprSyntaxFrame.ResolveImpl
      ⟨fid, .callee, argNo, numArgs, c, f, ops⟩ .void = .assertFail ∧
    CallExprSyntaxFrame.ResolveImpl
      ⟨fid, .arg, argNo, numArgs, c, f, ops⟩ .void = .assertFail ∧
    (∀ r : EvalResult, (r.isError || r.isExc) = true →
      CallExprSyntaxFrame.ResolveImpl
        ⟨fid, .callee, argNo, numArgs, c, f, ops⟩ r = .resolveParent r) := by
  refine ⟨rfl, rfl, fun r hr => ?_⟩
  simp [CallExprSyntaxFrame.ResolveImpl, hr]

/-- C4 amended witness: the forwarding conjunct applied at the Error
result on a concrete frame. -/
theorem claim_C4_void_asserts_witness :
    CallExprSyntaxFrame.ResolveImpl
      ⟨7, .callee, 0, 2, .invalid, none, []⟩ .error = .resolveParent .error :=
  (claim_C4_void_asserts 7 0 2 .invalid none []).2.2 .error rfl

/-- C5: resolving the callee subexpression of a call expression: a
value that is not a callable FunctionObject resolves the parent with
the non-callable exception carrying the value; an operative callee,
or an applicative callee of a zero-argument call, continues to an
Invoke-state successor with an empty operand list; an applicative
callee of a call with arguments continues to an Arg-state successor
with argument number 0. -/
theorem claim_C5_resolve_callee_cases (fid numArgs : Nat) (v : ValBox)
    (f : FunctionObject) :
    (FunctionObjectForValue v = none →
      CallExprSyntaxFrame.ResolveImpl
        (CallExprSyntaxFrame.CreateCallee fid numArgs) (.value v) =
      .resolveParent (.exc fid
        ⟨"Callee expression is not callable", [v]⟩)) ∧
    (FunctionObjectForValue v = some f → f.isOperative = true →
      CallExprSyntaxFrame.ResolveImpl
        (CallExprSyntaxFrame.CreateCallee fid numArgs) (.value v) =
      .continueFrame (.callExpr .invoke 0 v (some f) [])) ∧
    (FunctionObjectForValue v = some f → f.isOperative = false → numArgs = 0 →
      CallExprSyntaxFrame.ResolveImpl
        (CallExprSyntaxFrame.CreateCallee fid numArgs) (.value v) =
      .continueFrame (.callExpr .invoke 0 v (some f) [])) ∧
    (FunctionObjectForValue v = some f → f.isOperative = false → numArgs ≠ 0 →
      CallExprSyntaxFrame.ResolveImpl
        (CallExprSyntaxFrame.CreateCallee fid numArgs) (.value v) =
      .continueFrame (.callExpr .arg 0 v (some f) [])) := by
  refine ⟨fun h => ?_, fun h hop => ?_, fun h hop hz => ?_, fun h hop hnz => ?_⟩
  · simp [CallExprSyntaxFrame.ResolveImpl, CallExprSyntaxFrame.ResolveCallee,
          CallExprSyntaxFrame.CreateCallee, EvalResult.isError, EvalResult.isExc,
          EvalResult.valueOf, h]
  · simp [CallExprSyntaxFrame.ResolveImpl, CallExprSyntaxFrame.ResolveCallee,
          CallExprSyntaxFrame.CreateCallee, EvalResult.isError, EvalResult.isExc,
          EvalResult.valueOf, h, hop]
  · simp [CallExprSyntaxFrame.ResolveImpl, CallExprSyntaxFrame.ResolveCallee,
          CallExprSyntaxFrame.CreateCallee, EvalResult.isError, EvalResult.isExc,
          EvalResult.valueOf, h, hop, hz]
  · simp [CallExprSyntaxFrame.ResolveImpl, CallExprSyntaxFrame.ResolveCallee,
          CallExprSyntaxFrame.CreateCallee, EvalResult.isError, EvalResult.isExc,
          EvalResult.valueOf, h, hop, hnz]

/-- C5 witness: the three behaviours at concrete inputs: a
non-callable int32 callee, an operative callee, and an applicative
callee of a two-argument call. -/
theorem claim_C5_resolve_callee_cases_witness :
    CallExprSyntaxFrame.ResolveImpl
      (CallExprSyntaxFrame.CreateCallee 3 0) (.value (.int32 5)) =
      .resolveParent (.exc 3
        ⟨"Callee expression is not callable", [.int32 5]⟩) ∧
    CallExprSyntaxFrame.ResolveImpl
      (CallExprSyntaxFrame.CreateCallee 3 2)
      (.value (.pointer (.funcObject true))) =
      .continueFrame (.callExpr .invoke 0
        (.pointer (.funcObject true)) (some ⟨true⟩) []) ∧
    CallExprSyntaxFrame.ResolveImpl
      (CallExprSyntaxFrame.CreateCallee 3 2)
      (.value (.pointer (.funcObject false))) =
      .continueFrame (.callExpr .arg 0
        (.pointer (.funcObject false)) (some ⟨false⟩) []) :=
  ⟨(claim_C5_resolve_callee_cases 3 0 (.int32 5) ⟨true⟩).1 rfl,
   (claim_C5_resolve_callee_cases 3 2
      (.pointer (.funcObject true)) ⟨true⟩).2.1 rfl rfl,
   (claim_C5_resolve_callee_cases 3 2
      (.pointer (.funcObject false)) ⟨false⟩).2.2.2 rfl rfl (by decide)⟩

/-- C6: resolving a return statement whose expression produced a
value: a missing retcont binding resolves the parent with the
non-returnable-context exception; a bound non-pointer value and a
bound pointer to a non-continuation object each resolve the parent
with their own exception; the three messages are pairwise distinct. -/
theorem claim_C6_retcont_failures (fid : Nat) (v w : ValBox) (h : HeapKind) :
    ReturnStmtSyntaxFrame.ResolveImpl fid (.value v) .notFound =
      .resolveParent (.exc fid
        ⟨"return used in non-returnable context.", []⟩) ∧
    (w.isPointer = false →
      ReturnStmtSyntaxFrame.ResolveImpl fid (.value v) (.found (.value w)) =
        .resolveParent (.exc fid
          ⟨"@retcont contains a non-object value.", []⟩)) ∧
    (h.isContObject = false →
      ReturnStmtSyntaxFrame.ResolveImpl fid (.value v)
          (.found (.value (.pointer h))) =
        .resolveParent (.exc fid
          ⟨"@retcont contains a non-continuation object.", []⟩)) ∧
    ("return used in non-returnable context." ≠
      "@retcont contains a non-object value." ∧
     "return used in non-returnable context." ≠
      "@retcont contains a non-continuation object." ∧
     "@retcont contains a non-object value." ≠
      "@retcont contains a non-continuation object.") := by
  refine ⟨?_, fun hw => ?_, fun hc => ?_, by decide⟩
  · simp [ReturnStmtSyntaxFrame.ResolveImpl, EvalResult.isError,
          EvalResult.isExc, EvalResult.valueOf]
  · cases w <;> simp_all [ReturnStmtSyntaxFrame.ResolveImpl,
      EvalResult.isError, EvalResult.isExc, EvalResult.valueOf,
      ValBox.isPointer]
  · cases h <;> simp_all [ReturnStmtSyntaxFrame.ResolveImpl,
      EvalResult.isError, EvalResult.isExc, EvalResult.valueOf,
      HeapKind.isContObject]

/-- C6 witness: the three exception paths at concrete inputs: a
missing binding, a boolean bound under the retcont name, and a plain
object bound under the retcont name. -/
theorem claim_C6_retcont_failures_witness :
    ReturnStmtSyntaxFrame.ResolveImpl 4 (.value (.int32 7)) .notFound =
      .resolveParent (.exc 4
        ⟨"return used in non-returnable context.", []⟩) ∧
    ReturnStmtSyntaxFrame.ResolveImpl 4 (.value (.int32 7))
        (.found (.value (.boolean true))) =
      .resolveParent (.exc 4
        ⟨"@retcont contains a non-object value.", []⟩) ∧
    ReturnStmtSyntaxFrame.ResolveImpl 4 (.value (.int32 7))
        (.found (.value (.pointer .plainObject))) =
      .resolveParent (.exc 4
        ⟨"@retcont contains a non-continuation object.", []⟩) :=
  ⟨(claim_C6_retcont_failures 4 (.int32 7) (.boolean true) .plainObject).1,
   (claim_C6_retcont_failures 4 (.int32 7) (.boolean true) .plainObject).2.1 rfl,
   (claim_C6_retcont_failures 4 (.int32 7) (.boolean true) .plainObject).2.2.1 rfl⟩

/-- Folding prepend over a list reverses it onto the accumulator. -/
theorem foldl_prepend_eq_reverse_append (vs acc : List ValBox) :
    vs.foldl (fun ops v => v :: ops) acc = vs.reverse ++ acc := by
  induction vs generalizing acc with
  | nil => simp
  | cons a t ih => simp [List.foldl, ih]

/-- The argument-array loop of InvokeApplicativeFrame StepImpl
produces the reverse of the operand list. -/
theorem stepArgs_eq_reverse (l : List ValBox) :
    InvokeApplicativeFrame.StepArgs l = l.reverse := by
  apply List.ext_get
  · simp [InvokeApplicativeFrame.StepArgs]
  · intro i h1 h2
    simp only [InvokeApplicativeFrame.StepArgs, List.get_ofFn]
    rw [List.get_reverse']
    · simp
    · simp only [Fin.val_mk]
      simp at h2
      omega

/-- C7: the operand list accumulated by prepending the argument
values resolved in source order is their reverse, and the argument
array the invoke step builds from it is exactly the values in source
order. -/
theorem claim_C7_arg_order_restored (vs : List ValBox) :
    CallExprSyntaxFrame.operandsAfterArgs vs = vs.reverse ∧
    InvokeApplicativeFrame.StepArgs
      (CallExprSyntaxFrame.operandsAfterArgs vs) = vs := by
  have h1 : CallExprSyntaxFrame.operandsAfterArgs vs = vs.reverse := by
    unfold CallExprSyntaxFrame.operandsAfterArgs
    rw [foldl_prepend_eq_reverse_append, List.append_nil]
  exact ⟨h1, by rw [h1, stepArgs_eq_reverse, List.reverse_reverse]⟩

/-- C9: a freshly created TerminalFrame holds the undefined Value as
its result, and a trampoline run in which the terminal frame receives
no resolution observes the undefined Value as final result. -/
theorem claim_C9_terminal_initial_undefined :
    TerminalFrame.create.result = EvalResult.value ValBox.undefined ∧
    trampolineFinalResult [] = EvalResult.value ValBox.undefined :=
  ⟨rfl, rfl⟩

/-- C10: the universal dispatch frame forwards every result kind to
its parent unchanged on the resolve path. -/
theorem claim_C10_dispatch_transparent :
    (∀ v : ValBox, InvokeSyntaxNodeFrame.ResolveImpl (.value v) =
      .resolveParent (.value v)) ∧
    InvokeSyntaxNodeFrame.ResolveImpl .void = .resolveParent .void ∧
    InvokeSyntaxNodeFrame.ResolveImpl .error = .resolveParent .error ∧
    (∀ (fid : Nat) (e : InternalExc),
      InvokeSyntaxNodeFrame.ResolveImpl (.exc fid e) =
        .resolveParent (.exc fid e)) :=
  ⟨fun _ => rfl, rfl, rfl, fun _ _ => rfl⟩

end Whisper
